import Mathlib

/-!
Shallow embedding of the speedport-exporter session and collector core
(`src/speedport/client.py`, `src/speedport/collectors.py`, `src/main.py`).

HTTP effects are modelled by passing each response (status code and the
already-parsed body) as an explicit argument; the device's answer to the
login POST is an oracle from the submitted form data to the parsed
response.  The hash primitives SHA-1 and SHA-256 are abstract byte-list
functions, while HMAC and PBKDF2 are implemented concretely, so the
wiring of `hashlib.pbkdf2_hmac('sha1', ..., 1000, 16)` is explicit in
the model.  Python dict operations are modelled by association lists
with in-place overwrite, observed through lookup.  Fallible code returns
the exception it raises, if any.
-/

namespace Speedport

/-- Python exceptions raised by the embedded code paths.
`challengeNotFound` is the distinct error posited by the spec's error
taxonomy; the code under `src/` never raises it. -/
inductive PyError where
  | assertionError
  | keyError
  | nameError
  | challengeNotFound
  deriving DecidableEq, Repr

/-- Byte encoding of a string (`str.encode()`); every string the client
hashes (passwords, hex digests, the alphanumeric challenge) is ASCII,
where UTF-8 is the identity on code points. -/
def asciiBytes (s : String) : List Nat := s.data.map Char.toNat

/-- Lowercase hexadecimal digit for a value below 16. -/
def hexDigitChar (n : Nat) : Char :=
  if n < 10 then Char.ofNat (48 + n) else Char.ofNat (87 + n)

/-- Lowercase hex encoding of a byte list (`bytes.hex()`, `.hexdigest()`). -/
def bytesToHex (bs : List Nat) : String :=
  ⟨(bs.map (fun b => [hexDigitChar (b / 16 % 16), hexDigitChar (b % 16)])).flatten⟩

/-- Python dict lookup `m[k]` on an association list: the first binding for
the key (association lists built by `alistInsert` never duplicate keys). -/
def alistGet [DecidableEq κ] (m : List (κ × α)) (k : κ) : Option α :=
  (m.find? (fun p => decide (p.1 = k))).map Prod.snd

/-- Python dict update `m[k] = v`: overwrite in place when the key exists,
otherwise append the new binding. -/
def alistInsert [DecidableEq κ] (m : List (κ × α)) (k : κ) (v : α) : List (κ × α) :=
  if m.any (fun p => decide (p.1 = k)) then
    m.map (fun p => if p.1 = k then (k, v) else p)
  else m ++ [(k, v)]

/-- `Client.parse_typed_dict` (client.py lines 152-155): fold a parsed
`[{varid: ..., varvalue: ...}, ...]` list into a dict by successive
insertion. -/
def parse_typed_dict (data : List (String × α)) : List (String × α) :=
  data.foldl (fun m p => alistInsert m p.1 p.2) []

/-- HMAC with a 64-byte block size over an abstract hash (RFC 2104), as
`hashlib`'s HMAC for SHA-1: keys longer than the block are hashed, the key
is zero-padded to the block, and the digest is
`H((key xor opad) ++ H((key xor ipad) ++ msg))`. -/
def hmacH (H : List Nat → List Nat) (key msg : List Nat) : List Nat :=
  let key0 := if 64 < key.length then H key else key
  let key1 := key0 ++ List.replicate (64 - key0.length) 0
  H ((key1.map (fun b => b ^^^ 92)) ++ H ((key1.map (fun b => b ^^^ 54)) ++ msg))

/-- Big-endian 32-bit encoding of a block index (RFC 2898 `INT(i)`). -/
def int32be (n : Nat) : List Nat :=
  [n / 2 ^ 24 % 256, n / 2 ^ 16 % 256, n / 2 ^ 8 % 256, n % 256]

/-- Pointwise xor of two byte lists. -/
def xorBytes (a b : List Nat) : List Nat := List.zipWith (fun x y => x ^^^ y) a b

/-- One PBKDF2 block `T_i = U_1 xor U_2 xor ... xor U_c` where
`U_1 = PRF(pw, salt ++ INT(i))` and `U_j = PRF(pw, U_(j-1))` (RFC 2898). -/
def pbkdf2Block (H : List Nat → List Nat) (pw salt : List Nat) (iters idx : Nat) : List Nat :=
  let u1 := hmacH H pw (salt ++ int32be idx)
  ((List.range (iters - 1)).foldl
    (fun acc _ => let u := hmacH H pw acc.1; (u, xorBytes acc.2 u)) (u1, u1)).2

/-- `hashlib.pbkdf2_hmac` over an abstract hash of digest size `hLen`:
concatenate `ceil(dklen / hLen)` blocks and truncate to `dklen` bytes. -/
def pbkdf2Hmac (H : List Nat → List Nat) (hLen : Nat) (pw salt : List Nat)
    (iters dklen : Nat) : List Nat :=
  (((List.range ((dklen + hLen - 1) / hLen)).map
    (fun i => pbkdf2Block H pw salt iters (i + 1))).flatten).take dklen

/-- The regex character class `[0-9a-zA-Z]`. -/
def isAlnum (c : Char) : Bool :=
  ('0' ≤ c && c ≤ '9') || ('a' ≤ c && c ≤ 'z') || ('A' ≤ c && c ≤ 'Z')

/-- `re.search(r'[0-9a-zA-Z]{64}', text)` (client.py line 68): the match at
the leftmost position whose next 64 characters are all alphanumeric. -/
def findChallenge : List Char → Option String
  | [] => none
  | c :: rest =>
    if (((c :: rest).take 64).length = 64 ∧ ((c :: rest).take 64).all isAlnum) then
      some ⟨(c :: rest).take 64⟩
    else findChallenge rest

/-- The form data the client POSTs to `/data/Login.json`
(client.py lines 72-80): the hex SHA-256 of `challenge ++ ":" ++ password`,
a fixed placeholder CSRF token, the show-password flag, and the raw
challenge. -/
def loginRequestData (sha256h : List Nat → List Nat) (challenge password : String) :
    List (String × String) :=
  [("password", bytesToHex (sha256h (asciiBytes (challenge ++ ":" ++ password)))),
   ("csrf_token", "nulltoken"),
   ("showpw", "0"),
   ("challengev", challenge)]

/-- `Client.login` (client.py lines 65-114) as a function of the login-page
response, the device's answer to the POST (an oracle from the submitted
form data to the parsed response list), and the current cookie jar.
Returns the jar after the call and the exception raised, if any:
a non-200 page status fails the `assert`; an absent challenge leaves the
local variable `challenge` unassigned, so line 72 raises a `NameError`;
`data['login']` raises `KeyError` when the folded response has no `login`
key, and the `assert` fails when its value is not `"success"`; only after
all of that are the `challengev` and `derivedk` cookies installed. -/
def login (sha256h sha1h : List Nat → List Nat) (password : String)
    (pageStatus : Nat) (pageBody : String)
    (device : List (String × String) → List (String × String))
    (jar : List (String × String)) : List (String × String) × Option PyError :=
  if pageStatus = 200 then
    match findChallenge pageBody.data with
    | none => (jar, some PyError.nameError)
    | some challenge =>
      match alistGet (parse_typed_dict (device (loginRequestData sha256h challenge password)))
          "login" with
      | none => (jar, some PyError.keyError)
      | some v =>
        if v = "success" then
          (alistInsert (alistInsert jar "challengev" challenge) "derivedk"
            (bytesToHex (pbkdf2Hmac sha1h 20
              (asciiBytes (bytesToHex (sha256h (asciiBytes password))))
              (asciiBytes (challenge.take 16)) 1000 16)), none)
        else (jar, some PyError.assertionError)
  else (jar, some PyError.assertionError)

/-- Specification-side definition, following the spec's words: the encrypted
password is the hex-encoded SHA-256 of `challenge ++ ":" ++ password`. -/
def encryptedPasswordSpec (sha256h : List Nat → List Nat) (challenge password : String) : String :=
  bytesToHex (sha256h (asciiBytes (challenge ++ ":" ++ password)))

/-- Specification-side definition, following the spec's words: the session
key is PBKDF2-HMAC-SHA1 with 1000 iterations and 16-byte output, applied to
the hex-encoded SHA-256 of the password, salted with the first 16 characters
of the challenge. -/
def derivedKeySpec (sha1h sha256h : List Nat → List Nat) (challenge password : String) : String :=
  bytesToHex (pbkdf2Hmac sha1h 20 (asciiBytes (bytesToHex (sha256h (asciiBytes password))))
    (asciiBytes (challenge.take 16)) 1000 16)

/-- `Client.heartbeat` (client.py lines 130-143) given the HTTP status and the
parsed response list: a non-200 status fails the `assert`, and
`data['loginstate']` raises `KeyError` when the folded mapping lacks the key;
otherwise the result is whether the value equals `"1"`. -/
def heartbeat (status : Nat) (raw : List (String × String)) : Except PyError Bool :=
  if status = 200 then
    match alistGet (parse_typed_dict raw) "loginstate" with
    | none => Except.error PyError.keyError
    | some v => Except.ok (decide (v = "1"))
  else Except.error PyError.assertionError

/-- Environment of one keepalive iteration: the heartbeat response and, in
case a login is attempted, the login-page response and the device oracle. -/
structure LoopEnv where
  hbStatus : Nat
  hbBody : List (String × String)
  pageStatus : Nat
  pageBody : String
  device : List (String × String) → List (String × String)

/-- One iteration of `Client.login_loop` (client.py lines 145-150): run
`heartbeat()`; when it returns `False`, run `login()`.  Returns the jar,
whether `login()` was called, and the exception that escaped the iteration,
if any — the loop body has no exception handler. -/
def login_loop_iter (sha256h sha1h : List Nat → List Nat) (password : String)
    (env : LoopEnv) (jar : List (String × String)) :
    List (String × String) × Bool × Option PyError :=
  match heartbeat env.hbStatus env.hbBody with
  | Except.error e => (jar, false, some e)
  | Except.ok authorized =>
    if authorized then (jar, false, none)
    else
      let r := login sha256h sha1h password env.pageStatus env.pageBody env.device jar
      (r.1, true, r.2)

/-- `Client.login_loop` run over finitely many iteration environments: the
first escaping exception ends the loop; otherwise it keeps iterating.
Returns the final jar, the per-iteration login-called flags, and the
exception that terminated the loop, if any. -/
def login_loop_run (sha256h sha1h : List Nat → List Nat) (password : String) :
    List LoopEnv → List (String × String) →
      List (String × String) × List Bool × Option PyError
  | [], jar => (jar, [], none)
  | env :: rest, jar =>
    let step := login_loop_iter sha256h sha1h password env jar
    match step.2.2 with
    | some e => (step.1, [step.2.1], some e)
    | none =>
      let r := login_loop_run sha256h sha1h password rest step.1
      (r.1, step.2.1 :: r.2.1, r.2.2)

/-- One collector's behaviour during a pass: its subsystem label, the metric
writes its fetch and parse perform (in order) before finishing or raising,
and the exception raised after those writes, if any. -/
structure CollectorRun where
  subsystem : String
  writes : List (String × Int)
  failure : Option PyError
  deriving DecidableEq

/-- The metric sink: gauge values keyed by subsystem and metric name. -/
abbrev Sink := List ((String × String) × Int)

/-- Apply one collector's metric writes to the sink under its subsystem. -/
def applyWrites (sink : Sink) (sub : String) (ws : List (String × Int)) : Sink :=
  ws.foldl (fun s w => alistInsert s (sub, w.1) w.2) sink

/-- `BaseCollector.collect` (collectors.py lines 43-52): performs the
collector's fetch and parse, whose writes land in the sink, and catches any
exception inside the wrapper, reporting success as `true` and a caught,
logged failure as `false`. -/
def collectOne (sink : Sink) (c : CollectorRun) : Sink × Bool :=
  (applyWrites sink c.subsystem c.writes, c.failure.isNone)

/-- A collection pass over all collectors: every collector runs to a
terminal result; the pass returns the sink and one flag per collector. -/
def collectAll : List CollectorRun → Sink → Sink × List Bool
  | [], sink => (sink, [])
  | c :: rest, sink =>
    let r1 := collectOne sink c
    let r2 := collectAll rest r1.1
    (r2.1, r1.2 :: r2.2)

/-- Numeric value of a digit string, as Python `int` on `[0-9]+`. -/
def digitsToNat (ds : List Char) : Nat := ds.foldl (fun n c => n * 10 + (c.toNat - 48)) 0

/-- `re.search(r'([0-9]+)Mbps', speed)` (collectors.py line 341): at the
leftmost position, a maximal nonempty digit run followed by the literal
`Mbps` (a shortened run would leave a digit where `M` is required, so
greedy matching without backtracking is exact); the group is the run. -/
def searchMbps : List Char → Option Nat
  | [] => none
  | c :: rest =>
    let run := (c :: rest).takeWhile Char.isDigit
    if (run ≠ [] ∧ List.isPrefixOf "Mbps".data ((c :: rest).dropWhile Char.isDigit)) then
      some (digitsToNat run)
    else searchMbps rest

/-- Match `DownStream:([0-9]+)kbps UpStream:([0-9]+)kbps` at one position. -/
def matchDslAt (cs : List Char) : Option (Nat × Nat) :=
  if List.isPrefixOf "DownStream:".data cs then
    let cs1 := cs.drop "DownStream:".data.length
    let d := cs1.takeWhile Char.isDigit
    let cs2 := cs1.dropWhile Char.isDigit
    if (d ≠ [] ∧ List.isPrefixOf "kbps UpStream:".data cs2) then
      let cs3 := cs2.drop "kbps UpStream:".data.length
      let u := cs3.takeWhile Char.isDigit
      let cs4 := cs3.dropWhile Char.isDigit
      if (u ≠ [] ∧ List.isPrefixOf "kbps".data cs4) then
        some (digitsToNat d, digitsToNat u)
      else none
    else none
  else none

/-- `re.search(r'DownStream:([0-9]+)kbps UpStream:([0-9]+)kbps', speed)`
(collectors.py line 349): the match at the leftmost matching position. -/
def searchDsl : List Char → Option (Nat × Nat)
  | [] => none
  | c :: rest => (matchDslAt (c :: rest)).orElse (fun _ => searchDsl rest)

/-- The receive/transmit speed-gauge writes of
`InterfaceCollector._process_data` for one interface entry
(collectors.py lines 340-356): `some (rx, tx)` when both gauges are set,
`none` when the branch's regex does not match and the gauges are left
untouched. -/
def interfaceSpeedGauges (media speed : String) : Option (Int × Int) :=
  if media = "WLAN" then
    match searchMbps speed.data with
    | some n => some ((n : Int) * 1000, (n : Int) * 1000)
    | none => none
  else if media = "DSL" then
    match searchDsl speed.data with
    | some du => some ((du.1 : Int), (du.2 : Int))
    | none => none
  else some (-1, -1)

/-- Placeholder 20-byte digest function standing in for SHA-1 in concrete runs. -/
def dummyHash20 : List Nat → List Nat := fun _ => List.replicate 20 0

/-- Placeholder 32-byte digest function standing in for SHA-256 in concrete runs. -/
def dummyHash32 : List Nat → List Nat := fun _ => List.replicate 32 0

/-- A login page consisting of one 64-character alphanumeric token. -/
def challenge64 : String := "aaaaaaaaaaaaaaaaaaaaaaaaaaaaaaaaaaaaaaaaaaaaaaaaaaaaaaaaaaaaaaaa"

/-- A device oracle whose Login response accepts every request. -/
def okDevice : List (String × String) → List (String × String) :=
  fun _ => [("login", "success")]

/-- Keepalive environment whose heartbeat response lacks `loginstate`. -/
def hbErrEnv : LoopEnv :=
  { hbStatus := 200, hbBody := [], pageStatus := 200, pageBody := "", device := fun _ => [] }

/-- Keepalive environment whose heartbeat reports logged out and whose
login-page fetch then fails. -/
def loggedOutEnv : LoopEnv :=
  { hbStatus := 200, hbBody := [("loginstate", "0")], pageStatus := 500, pageBody := "",
    device := fun _ => [] }

/-- Three collectors of which exactly the second raises. -/
def csW : List CollectorRun :=
  [{ subsystem := "dsl", writes := [("rate", 5)], failure := none },
   { subsystem := "lte", writes := [("rsrp", 7)], failure := some PyError.keyError },
   { subsystem := "module", writes := [("up", 1)], failure := none }]

/-! ## Lemmas about the dict model -/

theorem alistGet_nil [DecidableEq κ] (k : κ) : alistGet ([] : List (κ × α)) k = none := rfl

theorem alistGet_cons [DecidableEq κ] (p : κ × α) (m : List (κ × α)) (k : κ) :
    alistGet (p :: m) k = if p.1 = k then some p.2 else alistGet m k := by
  by_cases h : p.1 = k <;> simp [alistGet, List.find?_cons, h]

theorem alistGet_eq_none_of_any_eq_false [DecidableEq κ] {m : List (κ × α)} {k : κ}
    (h : m.any (fun p => decide (p.1 = k)) = false) : alistGet m k = none := by
  induction m with
  | nil => rfl
  | cons p t ih =>
    simp only [List.any_cons, Bool.or_eq_false_iff, decide_eq_false_iff_not] at h
    rw [alistGet_cons, if_neg h.1]
    exact ih h.2

theorem alistGet_map_replace_self [DecidableEq κ] {m : List (κ × α)} {k : κ} (v : α)
    (h : m.any (fun p => decide (p.1 = k)) = true) :
    alistGet (m.map (fun p => if p.1 = k then (k, v) else p)) k = some v := by
  induction m with
  | nil => simp at h
  | cons p t ih =>
    by_cases hp : p.1 = k
    · simp only [List.map_cons, if_pos hp]
      rw [alistGet_cons, if_pos rfl]
    · simp only [List.any_cons, Bool.or_eq_true_iff, decide_eq_true_eq] at h
      rcases h with h | h
      · exact absurd h hp
      · simp only [List.map_cons, if_neg hp]
        rw [alistGet_cons, if_neg hp]
        exact ih h

theorem alistGet_map_replace_ne [DecidableEq κ] {m : List (κ × α)} {k k' : κ} (v : α)
    (hne : k' ≠ k) :
    alistGet (m.map (fun p => if p.1 = k then (k, v) else p)) k' = alistGet m k' := by
  induction m with
  | nil => rfl
  | cons p t ih =>
    by_cases hp : p.1 = k
    · simp only [List.map_cons, if_pos hp]
      rw [alistGet_cons, alistGet_cons, if_neg (fun h => hne h.symm),
        if_neg (fun h => hne (hp ▸ h).symm)]
      exact ih
    · simp only [List.map_cons, if_neg hp]
      rw [alistGet_cons, alistGet_cons]
      by_cases hp' : p.1 = k'
      · rw [if_pos hp', if_pos hp']
      · rw [if_neg hp', if_neg hp']
        exact ih

theorem alistGet_append_single [DecidableEq κ] (m : List (κ × α)) (k k' : κ) (v : α) :
    alistGet (m ++ [(k, v)]) k' =
      match alistGet m k' with
      | some w => some w
      | none => if k = k' then some v else none := by
  induction m with
  | nil =>
    by_cases h : k = k' <;> simp [alistGet, List.find?_cons, h]
  | cons p t ih =>
    rw [List.cons_append, alistGet_cons, alistGet_cons]
    by_cases hp : p.1 = k'
    · rw [if_pos hp, if_pos hp]
    · rw [if_neg hp, if_neg hp]
      exact ih

/-- Lookup after Python dict update: the updated key reads the new value,
every other key is untouched. -/
theorem alistGet_alistInsert [DecidableEq κ] (m : List (κ × α)) (k : κ) (v : α) (k' : κ) :
    alistGet (alistInsert m k v) k' = if k' = k then some v else alistGet m k' := by
  unfold alistInsert
  by_cases hany : m.any (fun p => decide (p.1 = k)) = true
  · rw [if_pos hany]
    by_cases hk : k' = k
    · subst hk
      rw [if_pos rfl, alistGet_map_replace_self v hany]
    · rw [if_neg hk, alistGet_map_replace_ne v hk]
  · rw [if_neg hany, alistGet_append_single]
    have hnone : alistGet m k = none :=
      alistGet_eq_none_of_any_eq_false (Bool.eq_false_iff.mpr hany ▸ rfl)
    by_cases hk : k' = k
    · subst hk
      rw [hnone, if_pos rfl]
    · rw [if_neg hk]
      cases h : alistGet m k' with
      | none => rw [if_neg (fun hh => hk hh.symm)]
      | some w => rfl

/-- Lookup in a dict built by folding insertions over a list: the last
binding for the key in the list wins, and a key absent from the list reads
from the initial dict. -/
theorem alistGet_foldl_insert [DecidableEq κ] (l : List (κ × α)) (m : List (κ × α)) (k : κ) :
    alistGet (l.foldl (fun s p => alistInsert s p.1 p.2) m) k =
      match (l.filter (fun p => decide (p.1 = k))).getLast? with
      | some q => some q.2
      | none => alistGet m k := by
  induction l using List.reverseRecOn with
  | nil => rfl
  | append_singleton l p ih =>
    rw [List.foldl_append, List.foldl_cons, List.foldl_nil, alistGet_alistInsert,
      List.filter_append]
    by_cases hp : p.1 = k
    · rw [if_pos hp.symm]
      have hfp : List.filter (fun q => decide (q.1 = k)) [p] = [p] := by simp [hp]
      rw [hfp, List.getLast?_concat]
    · rw [if_neg (fun h => hp h.symm)]
      have hfp : List.filter (fun q => decide (q.1 = k)) [p] = [] := by simp [hp]
      rw [hfp, List.append_nil]
      exact ih

/-- `parse_typed_dict` maps each id to the value of its last occurrence. -/
theorem alistGet_parse_typed_dict (l : List (String × α)) (k : String) :
    alistGet (parse_typed_dict l) k =
      ((l.filter (fun p => decide (p.1 = k))).getLast?).map Prod.snd := by
  rw [parse_typed_dict, alistGet_foldl_insert]
  cases (l.filter (fun p => decide (p.1 = k))).getLast? <;> rfl

/-- With pairwise-distinct ids, at most one entry survives the key filter. -/
theorem length_filter_key_le_one [DecidableEq κ] {l : List (κ × α)}
    (hn : (l.map Prod.fst).Nodup) (k : κ) :
    (l.filter (fun p => decide (p.1 = k))).length ≤ 1 := by
  induction l with
  | nil => simp
  | cons p t ih =>
    rw [List.map_cons, List.nodup_cons] at hn
    by_cases hp : p.1 = k
    · have ht : t.filter (fun q => decide (q.1 = k)) = [] := by
        refine List.filter_eq_nil_iff.mpr ?_
        intro q hq hqk
        rw [decide_eq_true_eq] at hqk
        have hmem : q.1 ∈ t.map Prod.fst := List.mem_map_of_mem Prod.fst hq
        rw [hqk, ← hp] at hmem
        exact hn.1 hmem
      simp [List.filter_cons, hp, ht]
    · simp only [List.filter_cons, decide_eq_true_eq, if_neg hp]
      exact ih hn.2

/-! ## Lemmas about the collection pass -/

theorem collectAll_length (cs : List CollectorRun) (sink : Sink) :
    (collectAll cs sink).2.length = cs.length := by
  induction cs generalizing sink with
  | nil => rfl
  | cons c rest ih => simp [collectAll, ih]

theorem collectAll_failed_count (cs : List CollectorRun) (sink : Sink) :
    ((collectAll cs sink).2.filter (fun b => !b)).length
      = (cs.filter (fun c => c.failure.isSome)).length := by
  induction cs generalizing sink with
  | nil => rfl
  | cons c rest ih =>
    simp only [collectAll, collectOne]
    cases hf : c.failure <;>
      simp [List.filter_cons, hf, ih]

theorem alistGet_applyWrites_ne (sink : Sink) (sub : String) (ws : List (String × Int))
    (sub' n : String) (h : sub ≠ sub') :
    alistGet (applyWrites sink sub ws) (sub', n) = alistGet sink (sub', n) := by
  induction ws generalizing sink with
  | nil => rfl
  | cons w t ih =>
    show alistGet (applyWrites (alistInsert sink (sub, w.1) w.2) sub t) (sub', n) = _
    rw [ih, alistGet_alistInsert,
      if_neg (fun hh => h (congrArg Prod.fst hh).symm)]

theorem alistGet_applyWrites (sink : Sink) (sub : String) (ws : List (String × Int))
    (key : String × String) :
    alistGet (applyWrites sink sub ws) key =
      match alistGet (applyWrites [] sub ws) key with
      | some v => some v
      | none => alistGet sink key := by
  induction ws generalizing sink with
  | nil => rfl
  | cons w t ih =>
    show alistGet (applyWrites (alistInsert sink (sub, w.1) w.2) sub t) key = _
    rw [ih,
      show applyWrites [] sub (w :: t) = applyWrites (alistInsert [] (sub, w.1) w.2) sub t
        from rfl,
      ih (alistInsert [] (sub, w.1) w.2)]
    cases halt : alistGet (applyWrites [] sub t) key with
    | some v => rfl
    | none =>
      simp only
      rw [alistGet_alistInsert, alistGet_alistInsert]
      by_cases hk : key = (sub, w.1)
      · rw [if_pos hk, if_pos hk]
      · rw [if_neg hk, if_neg hk, alistGet_nil]

theorem alistGet_applyWrites_some (sink : Sink) (sub : String) (ws : List (String × Int))
    (n : String) (v : Int)
    (h : alistGet (applyWrites [] sub ws) (sub, n) = some v) :
    alistGet (applyWrites sink sub ws) (sub, n) = some v := by
  rw [alistGet_applyWrites, h]

theorem alistGet_collectAll_not_mem (cs : List CollectorRun) (sink : Sink) (sub n : String)
    (h : sub ∉ cs.map (fun c => c.subsystem)) :
    alistGet (collectAll cs sink).1 (sub, n) = alistGet sink (sub, n) := by
  induction cs generalizing sink with
  | nil => rfl
  | cons c rest ih =>
    rw [List.map_cons, List.mem_cons] at h
    push_neg at h
    show alistGet (collectAll rest (applyWrites sink c.subsystem c.writes)).1 (sub, n) = _
    rw [ih _ h.2, alistGet_applyWrites_ne _ _ _ _ _ (fun hh => h.1 hh.symm)]

theorem alistGet_collectAll_mem (cs : List CollectorRun) (sink : Sink)
    (hn : (cs.map (fun c => c.subsystem)).Nodup)
    (c : CollectorRun) (hc : c ∈ cs) (n : String) (v : Int)
    (hv : alistGet (applyWrites [] c.subsystem c.writes) (c.subsystem, n) = some v) :
    alistGet (collectAll cs sink).1 (c.subsystem, n) = some v := by
  induction cs generalizing sink with
  | nil => cases hc
  | cons c0 rest ih =>
    rw [List.map_cons, List.nodup_cons] at hn
    rcases List.mem_cons.mp hc with rfl | hmem
    · show alistGet (collectAll rest (applyWrites sink c.subsystem c.writes)).1 _ = _
      rw [alistGet_collectAll_not_mem rest _ _ _ hn.1]
      exact alistGet_applyWrites_some _ _ _ _ _ hv
    · show alistGet (collectAll rest (applyWrites sink c0.subsystem c0.writes)).1 _ = _
      exact ih _ hn.2 hmem

/-! ## Claim theorems -/

/-- C5 counterexample: the two orderings of `[{a,1},{a,2}]` are permutations
of each other, yet folding them yields mappings that differ at `a` — the
fold is not order-independent when ids repeat. -/
theorem parse_typed_dict_perm_cex :
    List.Perm [(("a" : String), ("1" : String)), ("a", "2")] [("a", "2"), ("a", "1")]
    ∧ alistGet (parse_typed_dict [(("a" : String), ("1" : String)), ("a", "2")]) "a"
      ≠ alistGet (parse_typed_dict [("a", "2"), ("a", "1")]) "a" := by
  decide

/-- C5 (amended): for lists of `{id, value}` pairs whose ids are pairwise
distinct, every permutation of the input folds to the same mapping. -/
theorem parse_typed_dict_perm {α : Type} (l l' : List (String × α))
    (hn : (l.map Prod.fst).Nodup) (hp : l.Perm l') (k : String) :
    alistGet (parse_typed_dict l) k = alistGet (parse_typed_dict l') k := by
  rw [alistGet_parse_typed_dict, alistGet_parse_typed_dict]
  have hfp : (l.filter (fun p => decide (p.1 = k))).Perm
      (l'.filter (fun p => decide (p.1 = k))) := hp.filter _
  have h1 : (l.filter (fun p => decide (p.1 = k))).length ≤ 1 :=
    length_filter_key_le_one hn k
  have heq : l.filter (fun p => decide (p.1 = k)) = l'.filter (fun p => decide (p.1 = k)) := by
    cases hfl : l.filter (fun p => decide (p.1 = k)) with
    | nil =>
      rw [hfl] at hfp
      exact (List.perm_nil.mp hfp.symm).symm
    | cons a as =>
      rw [hfl] at hfp h1
      cases as with
      | nil => exact List.singleton_perm.mp hfp
      | cons b bs => simp at h1
  rw [heq]

/-- C5 witness: a concrete duplicate-free list and a permutation of it give
the same folded mapping. -/
theorem parse_typed_dict_perm_witness :
    (([(("a" : String), ("1" : String)), ("b", "2")]).map Prod.fst).Nodup
    ∧ List.Perm [(("a" : String), ("1" : String)), ("b", "2")] [("b", "2"), ("a", "1")]
    ∧ alistGet (parse_typed_dict [(("a" : String), ("1" : String)), ("b", "2")]) "a"
      = alistGet (parse_typed_dict [("b", "2"), ("a", "1")]) "a" :=
  ⟨by decide, by decide,
    parse_typed_dict_perm [("a", "1"), ("b", "2")] [("b", "2"), ("a", "1")]
      (by decide) (by decide) "a"⟩

/-- C10: when an id occurs more than once, the fold maps it to the value of
its last occurrence in list order — later entries overwrite earlier ones. -/
theorem parse_typed_dict_last_occurrence {α : Type} (l : List (String × α)) (k : String)
    (_hdup : 1 < (l.map Prod.fst).count k) :
    alistGet (parse_typed_dict l) k =
      ((l.filter (fun p => decide (p.1 = k))).getLast?).map Prod.snd :=
  alistGet_parse_typed_dict l k

/-- C10 witness: with `a` bound twice, the fold keeps the later value `2`. -/
theorem parse_typed_dict_last_occurrence_witness :
    1 < (([(("a" : String), ("1" : String)), ("a", "2")]).map Prod.fst).count "a"
    ∧ alistGet (parse_typed_dict [(("a" : String), ("1" : String)), ("a", "2")]) "a"
      = (([(("a" : String), ("1" : String)), ("a", "2")].filter
          (fun p => decide (p.1 = "a"))).getLast?).map Prod.snd :=
  ⟨by decide, parse_typed_dict_last_occurrence [("a", "1"), ("a", "2")] "a" (by decide)⟩

/-- C2 counterexample: on a folded heartbeat mapping without `loginstate`,
`heartbeat()` raises `KeyError` instead of returning `false`. -/
theorem heartbeat_missing_cex :
    heartbeat 200 [] = Except.error PyError.keyError
    ∧ heartbeat 200 [] ≠ Except.ok false :=
  ⟨rfl, fun h => nomatch h⟩

/-- C2 (amended): `heartbeat()` returns `true` iff the folded response maps
`loginstate` to `"1"`; any other present value returns `false`; when the key
is absent, `heartbeat()` raises `KeyError` rather than returning `false`. -/
theorem heartbeat_loginstate (raw : List (String × String)) :
    (heartbeat 200 raw = Except.ok true
      ↔ alistGet (parse_typed_dict raw) "loginstate" = some "1")
    ∧ (∀ v, alistGet (parse_typed_dict raw) "loginstate" = some v →
        heartbeat 200 raw = Except.ok (decide (v = "1")))
    ∧ (alistGet (parse_typed_dict raw) "loginstate" = none →
        heartbeat 200 raw = Except.error PyError.keyError) := by
  unfold heartbeat
  rw [if_pos rfl]
  cases h : alistGet (parse_typed_dict raw) "loginstate" with
  | none => simp
  | some v =>
    refine ⟨?_, ?_, by simp⟩
    · constructor
      · intro hh
        rw [Except.ok.injEq, decide_eq_true_eq] at hh
        rw [hh]
      · intro hh
        rw [Option.some.injEq] at hh
        rw [hh]
        rfl
    · intro w hw
      rw [Option.some.injEq] at hw
      rw [hw]

/-- C2 witness: a mapping with `loginstate = "1"` makes `heartbeat()`
return `true`. -/
theorem heartbeat_loginstate_witness :
    heartbeat 200 [("loginstate", "1")] = Except.ok true :=
  (heartbeat_loginstate [("loginstate", "1")]).1.mpr (by decide)

/-! ## Branch lemmas for `login` -/

theorem login_branch_success (sha256h sha1h : List Nat → List Nat) (pw body : String)
    (device : List (String × String) → List (String × String))
    (jar : List (String × String)) (ch : String)
    (hch : findChallenge body.data = some ch)
    (hs : alistGet (parse_typed_dict (device (loginRequestData sha256h ch pw))) "login"
      = some "success") :
    login sha256h sha1h pw 200 body device jar =
      (alistInsert (alistInsert jar "challengev" ch) "derivedk"
        (derivedKeySpec sha1h sha256h ch pw), none) := by
  unfold login
  rw [if_pos rfl]
  split
  · next heq => rw [hch] at heq; exact absurd heq (by simp)
  · next challenge heq =>
    rw [hch, Option.some.injEq] at heq
    subst heq
    rw [hs]
    rfl

theorem login_branch_keyError (sha256h sha1h : List Nat → List Nat) (pw body : String)
    (device : List (String × String) → List (String × String))
    (jar : List (String × String)) (ch : String)
    (hch : findChallenge body.data = some ch)
    (hs : alistGet (parse_typed_dict (device (loginRequestData sha256h ch pw))) "login"
      = none) :
    login sha256h sha1h pw 200 body device jar = (jar, some PyError.keyError) := by
  unfold login
  rw [if_pos rfl]
  split
  · next heq => rw [hch] at heq; exact absurd heq (by simp)
  · next challenge heq =>
    rw [hch, Option.some.injEq] at heq
    subst heq
    rw [hs]

theorem login_branch_reject (sha256h sha1h : List Nat → List Nat) (pw body : String)
    (device : List (String × String) → List (String × String))
    (jar : List (String × String)) (ch : String)
    (hch : findChallenge body.data = some ch) (v : String)
    (hv : alistGet (parse_typed_dict (device (loginRequestData sha256h ch pw))) "login"
      = some v)
    (hne : v ≠ "success") :
    login sha256h sha1h pw 200 body device jar = (jar, some PyError.assertionError) := by
  unfold login
  rw [if_pos rfl]
  split
  · next heq => rw [hch] at heq; exact absurd heq (by simp)
  · next challenge heq =>
    rw [hch, Option.some.injEq] at heq
    subst heq
    rw [hv]
    simp only [if_neg hne]

/-- Unfolding of one loop step of `login_loop_run`. -/
theorem login_loop_run_cons (sha256h sha1h : List Nat → List Nat) (password : String)
    (env : LoopEnv) (rest : List LoopEnv) (jar : List (String × String)) :
    login_loop_run sha256h sha1h password (env :: rest) jar =
      match (login_loop_iter sha256h sha1h password env jar).2.2 with
      | some e => ((login_loop_iter sha256h sha1h password env jar).1,
          [(login_loop_iter sha256h sha1h password env jar).2.1], some e)
      | none =>
        ((login_loop_run sha256h sha1h password rest
            (login_loop_iter sha256h sha1h password env jar).1).1,
         (login_loop_iter sha256h sha1h password env jar).2.1 ::
           (login_loop_run sha256h sha1h password rest
             (login_loop_iter sha256h sha1h password env jar).1).2.1,
         (login_loop_run sha256h sha1h password rest
           (login_loop_iter sha256h sha1h password env jar).1).2.2) := rfl

/-! ## Remaining claim theorems -/

/-- C1: whenever `login()` succeeds, the `derivedk` cookie it installs is the
hex PBKDF2-HMAC-SHA1 (1000 iterations, 16-byte output) of the hex SHA-256 of
the password, salted with the first 16 characters of the challenge extracted
from the page (not of the password). -/
theorem login_derivedKey (sha256h sha1h : List Nat → List Nat) (password pageBody : String)
    (device : List (String × String) → List (String × String))
    (jar : List (String × String)) (ch : String)
    (hch : findChallenge pageBody.data = some ch)
    (hok : (login sha256h sha1h password 200 pageBody device jar).2 = none) :
    alistGet (login sha256h sha1h password 200 pageBody device jar).1 "derivedk"
      = some (derivedKeySpec sha1h sha256h ch password) := by
  cases h : alistGet (parse_typed_dict (device (loginRequestData sha256h ch password)))
      "login" with
  | none =>
    rw [login_branch_keyError sha256h sha1h password pageBody device jar ch hch h] at hok
    exact absurd hok (by simp)
  | some v =>
    by_cases hv : v = "success"
    · subst hv
      rw [login_branch_success sha256h sha1h password pageBody device jar ch hch h]
      rw [alistGet_alistInsert, if_pos rfl]
    · rw [login_branch_reject sha256h sha1h password pageBody device jar ch hch v h hv] at hok
      exact absurd hok (by simp)

set_option maxRecDepth 10000 in
/-- C1 witness: a concrete successful login run installs exactly the
spec-side derived key. -/
theorem login_derivedKey_witness :
    alistGet (login dummyHash32 dummyHash20 "pw" 200 challenge64 okDevice []).1 "derivedk"
      = some (derivedKeySpec dummyHash20 dummyHash32 challenge64 "pw") :=
  login_derivedKey dummyHash32 dummyHash20 "pw" challenge64 okDevice [] challenge64
    (by decide) (by decide)

/-- C9: `login()` sends as `password` field exactly the hex SHA-256 of
`challenge ++ ":" ++ password`, and (given a 200 page with a challenge on it)
it accepts the Login exchange exactly when the device's response folds to a
mapping whose `login` key is the string `"success"`. -/
theorem login_encpw_accept (sha256h sha1h : List Nat → List Nat) (password pageBody : String)
    (device : List (String × String) → List (String × String))
    (jar : List (String × String)) (ch : String)
    (hch : findChallenge pageBody.data = some ch) :
    alistGet (loginRequestData sha256h ch password) "password"
      = some (encryptedPasswordSpec sha256h ch password)
    ∧ ((login sha256h sha1h password 200 pageBody device jar).2 = none ↔
        alistGet (parse_typed_dict (device (loginRequestData sha256h ch password))) "login"
          = some "success") := by
  refine ⟨rfl, ?_, ?_⟩
  · intro hok
    cases h : alistGet (parse_typed_dict (device (loginRequestData sha256h ch password)))
        "login" with
    | none =>
      rw [login_branch_keyError sha256h sha1h password pageBody device jar ch hch h] at hok
      exact absurd hok (by simp)
    | some v =>
      by_cases hv : v = "success"
      · rw [hv]
      · rw [login_branch_reject sha256h sha1h password pageBody device jar ch hch v h hv]
          at hok
        exact absurd hok (by simp)
  · intro hs
    rw [login_branch_success sha256h sha1h password pageBody device jar ch hch hs]

/-- C9 witness: a concrete request carries the spec-side encrypted password
and a `login = "success"` response is accepted. -/
theorem login_encpw_accept_witness :
    alistGet (loginRequestData dummyHash32 challenge64 "pw") "password"
      = some (encryptedPasswordSpec dummyHash32 challenge64 "pw")
    ∧ (login dummyHash32 dummyHash20 "pw" 200 challenge64 okDevice []).2 = none :=
  ⟨(login_encpw_accept dummyHash32 dummyHash20 "pw" challenge64 okDevice [] challenge64
      (by decide)).1,
   (login_encpw_accept dummyHash32 dummyHash20 "pw" challenge64 okDevice [] challenge64
      (by decide)).2.mpr (by decide)⟩

/-- C7: on any failing path `login()` leaves the cookie jar exactly as it
was, and on success it installs the `challengev` and `derivedk` cookies
together — never partially. -/
theorem login_cookie_atomic (sha256h sha1h : List Nat → List Nat) (password : String)
    (pageStatus : Nat) (pageBody : String)
    (device : List (String × String) → List (String × String))
    (jar : List (String × String)) :
    ((login sha256h sha1h password pageStatus pageBody device jar).2 ≠ none →
      (login sha256h sha1h password pageStatus pageBody device jar).1 = jar)
    ∧ ((login sha256h sha1h password pageStatus pageBody device jar).2 = none →
      ∃ ch dk, findChallenge pageBody.data = some ch ∧
        (login sha256h sha1h password pageStatus pageBody device jar).1 =
          alistInsert (alistInsert jar "challengev" ch) "derivedk" dk) := by
  unfold login
  split
  · split
    · exact ⟨fun _ => rfl, fun h => absurd h (by simp)⟩
    · next challenge heq =>
      split
      · exact ⟨fun _ => rfl, fun h => absurd h (by simp)⟩
      · next v hv =>
        split
        · exact ⟨fun h => absurd rfl h, fun _ => ⟨challenge, _, heq, rfl⟩⟩
        · exact ⟨fun _ => rfl, fun h => absurd h (by simp)⟩
  · exact ⟨fun _ => rfl, fun h => absurd h (by simp)⟩

/-- C7 witness: a failing login (bad page status) leaves the jar unchanged. -/
theorem login_cookie_atomic_witness :
    (login dummyHash32 dummyHash20 "pw" 500 "" okDevice [("k", "v")]).1 = [("k", "v")] :=
  (login_cookie_atomic dummyHash32 dummyHash20 "pw" 500 "" okDevice [("k", "v")]).1
    (by decide)

/-- C6 counterexample: on a login page with no 64-character token, `login()`
fails with the generic unbound-local `NameError`, not with the distinct
`ChallengeNotFound` error posited by the spec. -/
theorem login_challenge_missing_cex :
    (login dummyHash32 dummyHash20 "pw" 200 "x" okDevice []).2 = some PyError.nameError
    ∧ PyError.nameError ≠ PyError.challengeNotFound :=
  ⟨rfl, by decide⟩

/-- C6 (amended): when the login page contains no 64-character alphanumeric
token, `login()` fails — but with the `NameError` from the unassigned local
`challenge`, and on no input does it fail with a distinct `ChallengeNotFound`
error, which the code never defines. -/
theorem login_challenge_missing (sha256h sha1h : List Nat → List Nat)
    (password pageBody : String)
    (device : List (String × String) → List (String × String))
    (jar : List (String × String))
    (h : findChallenge pageBody.data = none) :
    login sha256h sha1h password 200 pageBody device jar = (jar, some PyError.nameError)
    ∧ ∀ st, (login sha256h sha1h password st pageBody device jar).2
        ≠ some PyError.challengeNotFound := by
  constructor
  · unfold login
    rw [if_pos rfl, h]
  · intro st
    unfold login
    split
    · rw [h]
      simp
    · simp

/-- C6 witness: a concrete challenge-free page makes `login()` raise the
unbound-local error. -/
theorem login_challenge_missing_witness :
    login dummyHash32 dummyHash20 "pw" 200 "x" okDevice [] = ([], some PyError.nameError) :=
  (login_challenge_missing dummyHash32 dummyHash20 "pw" "x" okDevice [] (by decide)).1

/-- C3 counterexample: when `heartbeat()` raises (here: response without
`loginstate`), `login()` is not called — contrary to the claim — and the
escaping exception terminates the keepalive loop. -/
theorem login_loop_cex :
    (login_loop_iter dummyHash32 dummyHash20 "pw" hbErrEnv []).2.1 = false
    ∧ (login_loop_run dummyHash32 dummyHash20 "pw" [hbErrEnv] []).2.2
      = some PyError.keyError :=
  ⟨rfl, rfl⟩

/-- C3 (amended): in each iteration, `login()` is called exactly when the
preceding `heartbeat()` returns `false` (not when it fails); any exception
escaping from `heartbeat()` or `login()` terminates the loop after that
iteration, while an exception-free iteration lets the loop continue. -/
theorem login_loop_behaviour (sha256h sha1h : List Nat → List Nat) (password : String)
    (env : LoopEnv) (jar : List (String × String)) (rest : List LoopEnv) :
    ((login_loop_iter sha256h sha1h password env jar).2.1 = true ↔
      heartbeat env.hbStatus env.hbBody = Except.ok false)
    ∧ (∀ e, (login_loop_iter sha256h sha1h password env jar).2.2 = some e →
      (login_loop_run sha256h sha1h password (env :: rest) jar).2.2 = some e
      ∧ (login_loop_run sha256h sha1h password (env :: rest) jar).2.1.length = 1)
    ∧ ((login_loop_iter sha256h sha1h password env jar).2.2 = none →
      (login_loop_run sha256h sha1h password (env :: rest) jar).2.2 =
        (login_loop_run sha256h sha1h password rest
          (login_loop_iter sha256h sha1h password env jar).1).2.2) := by
  cases hhb : heartbeat env.hbStatus env.hbBody with
  | error e =>
    have hit : login_loop_iter sha256h sha1h password env jar = (jar, false, some e) := by
      unfold login_loop_iter
      rw [hhb]
    rw [login_loop_run_cons, hit]
    dsimp only
    refine ⟨by simp, ?_, by simp⟩
    intro e' he'
    rw [Option.some.injEq] at he'
    subst he'
    exact ⟨rfl, rfl⟩
  | ok authorized =>
    cases authorized with
    | true =>
      have hit : login_loop_iter sha256h sha1h password env jar = (jar, false, none) := by
        unfold login_loop_iter
        rw [hhb]
        rfl
      rw [login_loop_run_cons, hit]
      dsimp only
      exact ⟨by simp, by simp, fun _ => rfl⟩
    | false =>
      cases hlg : login sha256h sha1h password env.pageStatus env.pageBody env.device jar with
      | mk jar' err =>
        have hit : login_loop_iter sha256h sha1h password env jar = (jar', true, err) := by
          unfold login_loop_iter
          rw [hhb, hlg]
          rfl
        rw [login_loop_run_cons, hit]
        dsimp only
        cases err with
        | none =>
          refine ⟨by simp, ?_, fun _ => rfl⟩
          intro e' he'
          exact absurd he' (by simp)
        | some e =>
          refine ⟨by simp, ?_, ?_⟩
          · intro e' he'
            rw [Option.some.injEq] at he'
            subst he'
            exact ⟨rfl, rfl⟩
          · intro hn
            exact absurd hn (by simp)

/-- C3 witness: a heartbeat reporting logged out makes the next iteration
call `login()`. -/
theorem login_loop_behaviour_witness :
    (login_loop_iter dummyHash32 dummyHash20 "pw" loggedOutEnv []).2.1 = true :=
  (login_loop_behaviour dummyHash32 dummyHash20 "pw" loggedOutEnv [] []).1.mpr rfl

/-- C4: in a pass where the collectors' subsystems are distinct and exactly
one collector raises, every collector reaches a terminal result (N results),
exactly one is marked failed, and each successful collector's metric writes
are present and correct in the final sink — the failure neither propagates
nor disturbs the siblings. -/
theorem collect_isolation (cs : List CollectorRun) (sink : Sink)
    (hn : (cs.map (fun c => c.subsystem)).Nodup)
    (hone : (cs.filter (fun c => c.failure.isSome)).length = 1) :
    (collectAll cs sink).2.length = cs.length
    ∧ ((collectAll cs sink).2.filter (fun b => !b)).length = 1
    ∧ ∀ c ∈ cs, c.failure = none → ∀ n v,
        alistGet (applyWrites [] c.subsystem c.writes) (c.subsystem, n) = some v →
        alistGet (collectAll cs sink).1 (c.subsystem, n) = some v := by
  refine ⟨collectAll_length cs sink, ?_, ?_⟩
  · rw [collectAll_failed_count]
    exact hone
  · intro c hc _ n v hv
    exact alistGet_collectAll_mem cs sink hn c hc n v hv

/-- C4 witness: with three collectors of which the second raises, the pass
yields three results, one failure, and the first collector's write. -/
theorem collect_isolation_witness :
    (collectAll csW []).2.length = csW.length
    ∧ ((collectAll csW []).2.filter (fun b => !b)).length = 1
    ∧ alistGet (collectAll csW []).1 ("dsl", "rate") = some 5 :=
  ⟨(collect_isolation csW [] (by decide) (by decide)).1,
   (collect_isolation csW [] (by decide) (by decide)).2.1,
   (collect_isolation csW [] (by decide) (by decide)).2.2
     { subsystem := "dsl", writes := [("rate", 5)], failure := none }
     (by decide) rfl "rate" 5 (by decide)⟩

/-- C8: for one interface entry, WLAN speeds `<n>Mbps` set both speed gauges
to `n * 1000` kbps, DSL speeds set the receive gauge to the DownStream value
and the transmit gauge to the UpStream value, and any other media sets both
gauges to `-1`. -/
theorem interface_speed (media speed : String) :
    (media = "WLAN" → ∀ n, searchMbps speed.data = some n →
      interfaceSpeedGauges media speed = some ((n : Int) * 1000, (n : Int) * 1000))
    ∧ (media = "DSL" → ∀ d u, searchDsl speed.data = some (d, u) →
      interfaceSpeedGauges media speed = some ((d : Int), (u : Int)))
    ∧ (media ≠ "WLAN" → media ≠ "DSL" →
      interfaceSpeedGauges media speed = some (-1, -1)) := by
  refine ⟨?_, ?_, ?_⟩
  · rintro rfl n h
    unfold interfaceSpeedGauges
    rw [if_pos rfl, h]
  · rintro rfl d u h
    unfold interfaceSpeedGauges
    rw [if_neg (by decide), if_pos rfl, h]
  · intro h1 h2
    unfold interfaceSpeedGauges
    rw [if_neg h1, if_neg h2]

/-- C8 witness: the spec's end-to-end gauge values on concrete entries. -/
theorem interface_speed_witness :
    interfaceSpeedGauges "WLAN" "866Mbps" = some (866000, 866000)
    ∧ interfaceSpeedGauges "DSL" "DownStream:50000kbps UpStream:10000kbps"
      = some (50000, 10000)
    ∧ interfaceSpeedGauges "LAN" "1000Mbps" = some (-1, -1) :=
  ⟨(interface_speed "WLAN" "866Mbps").1 rfl 866 (by decide),
   (interface_speed "DSL" "DownStream:50000kbps UpStream:10000kbps").2.1 rfl 50000 10000
     (by decide),
   (interface_speed "LAN" "1000Mbps").2.2 (by decide) (by decide)⟩

end Speedport
